import Mathlib

/-!
Verification of the two operational scripts of the PantherKolab repository:
the CSV-to-store loader (import-messages-to-dynamodb.py) and the
sender-id mutator (update-sender-id.py). The Python code is shallowly
embedded: CSV rows and store items are association lists from attribute
names to values, the store table is a function from primary keys to
optional items, and the interactive loops are explicit recursions with a
fuel bound standing for an unbounded while-loop.
-/

namespace PantherKolab

/-- A typed attribute value of the store, mirroring the DynamoDB wire
format used by the scripts: string (S), number carried as a string (N),
boolean (BOOL), list (L) and map (M). -/
inductive AttrVal where
  | S : String → AttrVal
  | N : String → AttrVal
  | BOOL : Bool → AttrVal
  | L : List AttrVal → AttrVal
  | M : List (String × AttrVal) → AttrVal

/-- A store item: a mapping from attribute names to typed values,
represented as an association list (the Python dict built by
convert_to_dynamodb_item). -/
abbrev Item := List (String × AttrVal)

/-- A CSV row as produced by csv.DictReader: a string-keyed record of
string fields, represented as an association list. -/
abbrev Row := List (String × String)

/-- Semantics of the Python string method lower() on the ASCII strings
the scripts handle: each character is lowercased. -/
def pyLower (s : String) : String := String.mk (s.data.map Char.toLower)

/-- Semantics of the Python string method strip() with no argument:
leading and trailing whitespace characters are removed. -/
def pyStrip (s : String) : String :=
  String.mk (((s.data.dropWhile Char.isWhitespace).reverse.dropWhile
    Char.isWhitespace).reverse)

/-- Lookup of a required field, mirroring the Python subscript
row[field] : returns the value, or the missing key as a KeyError. -/
def reqField (row : Row) (f : String) : Except String String :=
  match row.lookup f with
  | some v => Except.ok v
  | none => Except.error f

/-- The optional-field clause of convert_to_dynamodb_item:
if row.get(f) and row[f].strip(): item[f] = c(row[f]). Python truthiness
of row.get(f) is presence with a non-empty value, truthiness of strip()
is a non-blank trim; the stored value is the original row[f]. -/
def optAttr (row : Row) (f : String) (c : String → AttrVal) : List (String × AttrVal) :=
  match row.lookup f with
  | some v => if v ≠ "" ∧ pyStrip v ≠ "" then [(f, c v)] else []
  | none => []

/-- convert_to_dynamodb_item from import-messages-to-dynamodb.py: the
eight required fields are read in source order (the first missing one is
the KeyError raised), the deleted flag is row.lower() == "true", readBy
and reactions start empty, and the five optional fields are appended
only when present and non-blank. -/
def convert_to_dynamodb_item (row : Row) : Except String Item := do
  let conversationId ← reqField row "conversationId"
  let timestamp ← reqField row "timestamp"
  let messageId ← reqField row "messageId"
  let senderId ← reqField row "senderId"
  let ty ← reqField row "type"
  let content ← reqField row "content"
  let createdAt ← reqField row "createdAt"
  let deleted ← reqField row "deleted"
  return ([("conversationId", AttrVal.S conversationId),
           ("timestamp", AttrVal.S timestamp),
           ("messageId", AttrVal.S messageId),
           ("senderId", AttrVal.S senderId),
           ("type", AttrVal.S ty),
           ("content", AttrVal.S content),
           ("createdAt", AttrVal.S createdAt),
           ("deleted", AttrVal.BOOL (pyLower deleted == "true")),
           ("readBy", AttrVal.L []),
           ("reactions", AttrVal.M [])]
          ++ optAttr row "replyTo" AttrVal.S
          ++ optAttr row "duration" AttrVal.N
          ++ optAttr row "fileName" AttrVal.S
          ++ optAttr row "fileSize" AttrVal.N
          ++ optAttr row "mediaUrl" AttrVal.S)

/-- The batch loop of main() in import-messages-to-dynamodb.py, seen
through its two counters. Each record is converted and written; the
per-record except block increments failed_count and logs the failure by
reading row[messageId] — a read that itself raises KeyError, and so
aborts the whole batch, when messageId is the missing field. The store's
acceptance of the idx-th write is the oracle putOk. Returns the final
(imported_count, failed_count), or the KeyError name escaping the loop. -/
def importLoop (putOk : Nat → Bool) :
    List Row → Nat → Nat → Nat → Except String (Nat × Nat)
  | [], _, imported, failed => Except.ok (imported, failed)
  | row :: rest, idx, imported, failed =>
    match convert_to_dynamodb_item row with
    | Except.ok _item =>
      if putOk idx then
        importLoop putOk rest (idx + 1) (imported + 1) failed
      else
        match row.lookup "messageId" with
        | some _ => importLoop putOk rest (idx + 1) imported (failed + 1)
        | none => Except.error "messageId"
    | Except.error _e =>
      match row.lookup "messageId" with
      | some _ => importLoop putOk rest (idx + 1) imported (failed + 1)
      | none => Except.error "messageId"

/-- Reading of a string-typed attribute, mirroring item[a][S]. -/
def getS (it : Item) (a : String) : Option String :=
  match it.lookup a with
  | some (AttrVal.S s) => some s
  | _ => none

/-- The primary key of an item: its conversationId and timestamp
attributes, the composite key of the Messages table. -/
def itemKey (it : Item) : Option String × Option String :=
  (getS it "conversationId", getS it "timestamp")

/-- The store table: a mapping from composite primary keys to items. -/
abbrev Table := Option String × Option String → Option Item

/-- put_item: an unconditional overwrite-put of the item under its own
primary key; no existence check. -/
def putItem (t : Table) (it : Item) : Table :=
  fun k => if k = itemKey it then some it else t k

/-- A sequence of puts applied in order. -/
def applyPuts (t : Table) (ps : List Item) : Table :=
  ps.foldl putItem t

/-- The sequence of items the batch loop puts, in order, for a given
input file: one converted item per convertible record, cut short at a
record whose conversion fails with messageId missing (where the loop
aborts). A record failing on another field contributes no put and the
loop continues. It is determined by the file alone. -/
def putsOf : List Row → List Item
  | [] => []
  | row :: rest =>
    match convert_to_dynamodb_item row with
    | Except.ok item => item :: putsOf rest
    | Except.error _ =>
      match row.lookup "messageId" with
      | some _ => putsOf rest
      | none => []

/-- The effect of one loader run on the table, with the store accepting
every write (the service is assumed reliable and there are no concurrent
writers): each record is converted and overwrite-put in order, with the
same per-record failure handling as the counter view importLoop. -/
def importTable (t : Table) : List Row → Table
  | [] => t
  | row :: rest =>
    match convert_to_dynamodb_item row with
    | Except.ok item => importTable (putItem t item) rest
    | Except.error _ =>
      match row.lookup "messageId" with
      | some _ => importTable t rest
      | none => t

/-- The fixed old sender id of update-sender-id.py. -/
def OLD_SENDER_ID : String := "a1b2c3d4-e5f6-7890-abcd-ef1234567890"

/-- The fixed new sender id of update-sender-id.py. -/
def NEW_SENDER_ID : String := "44e88408-8091-7022-99dc-c9b9b9d1d4af"

/-- One response of the store to a scan call: the (filtered) items of
the scanned page, and the LastEvaluatedKey continuation token when more
of the table remains. The token is opaque to the script. -/
structure ScanPage where
  items : List Item
  lastKey : Option String

/-- The three counters of update_sender_ids. -/
structure Counters where
  scanned : Nat
  updated : Nat
  errored : Nat
deriving DecidableEq

/-- The per-item try block of update_sender_ids, seen through the
counters: when the key extraction and the update call both succeed
(oracle value true) updated_count is incremented, on any exception
(oracle value false) error_count is incremented. -/
def stepItem (ok : Bool) (st : Counters) : Counters :=
  if ok then { st with updated := st.updated + 1 }
  else { st with errored := st.errored + 1 }

/-- The inner for-loop of update_sender_ids over one page: every item is
processed in order, each consuming the next value of the outcome oracle
(indexed by a running item counter n). -/
def processItems (outcome : Nat → Bool) :
    List Item → Nat → Counters → Nat × Counters
  | [], n, st => (n, st)
  | _it :: rest, n, st => processItems outcome rest (n + 1) (stepItem (outcome n) st)

/-- The counter states passed through by the inner for-loop, from the
state at page receipt to the state after the last item. -/
def processItemsStates (outcome : Nat → Bool) :
    List Item → Nat → Counters → List Counters
  | [], _, st => [st]
  | _it :: rest, n, st =>
    st :: processItemsStates outcome rest (n + 1) (stepItem (outcome n) st)

/-- The while-True scan loop of update_sender_ids: each iteration issues
one scan (the environment answers with pages i for the i-th call), adds
the page length to scanned_count, processes every item of the page, and
exits exactly when the response carries no LastEvaluatedKey. fuel bounds
the number of iterations: none means the bound was hit with the loop
still running. -/
def scanLoop (pages : Nat → ScanPage) (outcome : Nat → Bool) :
    Nat → Nat → Nat → Counters → Option Counters
  | 0, _, _, _ => none
  | fuel + 1, i, n, st =>
    let page := pages i
    let afterScan := { st with scanned := st.scanned + page.items.length }
    let res := processItems outcome page.items n afterScan
    match page.lastKey with
    | none => some res.2
    | some _ => scanLoop pages outcome fuel (i + 1) res.1 res.2

/-- All counter states the scan loop passes through, in order: the state
at each scan call, every intermediate state of each page's inner loop,
and the state after each page. -/
def scanLoopTrace (pages : Nat → ScanPage) (outcome : Nat → Bool) :
    Nat → Nat → Nat → Counters → List Counters
  | 0, _, _, st => [st]
  | fuel + 1, i, n, st =>
    let page := pages i
    let afterScan := { st with scanned := st.scanned + page.items.length }
    let res := processItems outcome page.items n afterScan
    match page.lastKey with
    | none => st :: processItemsStates outcome page.items n afterScan
    | some _ =>
      st :: processItemsStates outcome page.items n afterScan
        ++ scanLoopTrace pages outcome fuel (i + 1) res.1 res.2

/-- Number of update_item calls the script issues for one scanned item:
one when both key reads item[conversationId][S] and item[timestamp][S]
succeed, none when extraction raises before the call (the exception is
still caught and counted, but no request leaves the script). -/
def itemUpdateCalls (it : Item) : Nat :=
  match getS it "conversationId", getS it "timestamp" with
  | some _, some _ => 1
  | _, _ => 0

/-- Total store calls (scans plus updates) issued by the scan loop
within fuel iterations. -/
def scanLoopCalls (pages : Nat → ScanPage) : Nat → Nat → Nat
  | 0, _ => 0
  | fuel + 1, i =>
    let page := pages i
    1 + (page.items.map itemUpdateCalls).sum +
      match page.lastKey with
      | none => 0
      | some _ => scanLoopCalls pages fuel (i + 1)

/-- The confirmation gate of the main block of update-sender-id.py:
input(...).strip().lower() == "yes". -/
def confirmAccepted (line : String) : Bool := pyLower (pyStrip line) == "yes"

/-- Store calls performed by a run of the mutator that reads line as its
confirmation input: update_sender_ids runs only when the gate accepts,
otherwise the script prints a cancellation and exits with no calls. -/
def mutatorStoreCalls (line : String) (pages : Nat → ScanPage) (fuel : Nat) : Nat :=
  if confirmAccepted line then scanLoopCalls pages fuel 0 else 0

/-- The store's semantics of SET a = v on one item: the attribute is
replaced when present, appended when absent; nothing else changes. -/
def setAttr : Item → String → AttrVal → Item
  | [], a, v => [(a, v)]
  | (b, w) :: rest, a, v =>
    if b == a then (b, v) :: rest else (b, w) :: setAttr rest a v

/-- The update the mutator issues for one row, as executed by the store:
UpdateExpression SET senderId = :new_sender with the new sender bound. -/
def applyUpdateSenderId (newSender : String) (it : Item) : Item :=
  setAttr it "senderId" (AttrVal.S newSender)

/-- The table-level effect of one update_item call of the mutator,
addressed at primary key k: only the row at k is touched. -/
def updateItemSenderId (t : Table) (k : Option String × Option String)
    (newSender : String) : Table :=
  fun q => if q = k then (t k).map (applyUpdateSenderId newSender) else t q

/-! Helper lemmas about association-list lookup and the shape of a
successful conversion. -/

theorem lookup_append {α : Type} (l₁ l₂ : List (String × α)) (a : String) :
    (l₁ ++ l₂).lookup a = ((l₁.lookup a).or (l₂.lookup a)) := by
  induction l₁ with
  | nil => simp [List.lookup]
  | cons p rest ih =>
    obtain ⟨b, v⟩ := p
    simp only [List.cons_append, List.lookup]
    cases h : a == b <;> simp [ih]

theorem lookup_optAttr_ne (row : Row) (f a : String) (c : String → AttrVal)
    (h : a ≠ f) : (optAttr row f c).lookup a = none := by
  have hb : (a == f) = false := by simp [h]
  cases hr : row.lookup f <;> simp only [optAttr, hr]
  · simp [List.lookup]
  · split <;> simp [List.lookup, hb]

theorem lookup_optAttr_self (row : Row) (f : String) (c : String → AttrVal) :
    (optAttr row f c).lookup f =
      match row.lookup f with
      | some v => if v ≠ "" ∧ pyStrip v ≠ "" then some (c v) else none
      | none => none := by
  cases hr : row.lookup f <;> simp only [optAttr, hr]
  · simp [List.lookup]
  · split <;> simp [List.lookup]

theorem pyStrip_empty : pyStrip "" = "" := rfl

theorem convert_ok_shape (row : Row) (item : Item)
    (h : convert_to_dynamodb_item row = Except.ok item) :
    ∃ cid ts mid sid ty ct ca dl,
      row.lookup "conversationId" = some cid ∧
      row.lookup "timestamp" = some ts ∧
      row.lookup "messageId" = some mid ∧
      row.lookup "senderId" = some sid ∧
      row.lookup "type" = some ty ∧
      row.lookup "content" = some ct ∧
      row.lookup "createdAt" = some ca ∧
      row.lookup "deleted" = some dl ∧
      item = [("conversationId", AttrVal.S cid),
           ("timestamp", AttrVal.S ts),
           ("messageId", AttrVal.S mid),
           ("senderId", AttrVal.S sid),
           ("type", AttrVal.S ty),
           ("content", AttrVal.S ct),
           ("createdAt", AttrVal.S ca),
           ("deleted", AttrVal.BOOL (pyLower dl == "true")),
           ("readBy", AttrVal.L []),
           ("reactions", AttrVal.M [])]
          ++ optAttr row "replyTo" AttrVal.S
          ++ optAttr row "duration" AttrVal.N
          ++ optAttr row "fileName" AttrVal.S
          ++ optAttr row "fileSize" AttrVal.N
          ++ optAttr row "mediaUrl" AttrVal.S := by
  simp only [convert_to_dynamodb_item, reqField, bind, Except.bind, pure, Except.pure] at h
  cases h1 : row.lookup "conversationId" <;> rw [h1] at h
  · exact absurd h (by simp)
  cases h2 : row.lookup "timestamp" <;> rw [h2] at h
  · exact absurd h (by simp)
  cases h3 : row.lookup "messageId" <;> rw [h3] at h
  · exact absurd h (by simp)
  cases h4 : row.lookup "senderId" <;> rw [h4] at h
  · exact absurd h (by simp)
  cases h5 : row.lookup "type" <;> rw [h5] at h
  · exact absurd h (by simp)
  cases h6 : row.lookup "content" <;> rw [h6] at h
  · exact absurd h (by simp)
  cases h7 : row.lookup "createdAt" <;> rw [h7] at h
  · exact absurd h (by simp)
  cases h8 : row.lookup "deleted" <;> rw [h8] at h
  · exact absurd h (by simp)
  simp only [Except.ok.injEq] at h
  exact ⟨_, _, _, _, _, _, _, _, rfl, rfl, rfl, rfl, rfl, rfl, rfl, rfl, h.symm⟩

theorem convert_lookup_opt (row : Row) (item : Item)
    (h : convert_to_dynamodb_item row = Except.ok item) (f : String)
    (c : String → AttrVal)
    (hf : (f, c) ∈ [("replyTo", AttrVal.S), ("duration", AttrVal.N),
      ("fileName", AttrVal.S), ("fileSize", AttrVal.N), ("mediaUrl", AttrVal.S)]) :
    item.lookup f = (optAttr row f c).lookup f := by
  obtain ⟨cid, ts, mid, sid, ty, ct, ca, dl, _, _, _, _, _, _, _, _, rfl⟩ :=
    convert_ok_shape row item h
  fin_cases hf <;>
    simp [lookup_append, List.lookup, lookup_optAttr_ne]

theorem ne_empty_of_pyStrip_ne (v : String) (h : pyStrip v ≠ "") : v ≠ "" := by
  intro hv
  rw [hv] at h
  exact h pyStrip_empty

theorem optCond_iff (v : String) : (v ≠ "" ∧ pyStrip v ≠ "") ↔ pyStrip v ≠ "" :=
  ⟨And.right, fun h => ⟨ne_empty_of_pyStrip_ne v h, h⟩⟩

/-- A concrete input record used to instantiate the conversion theorems:
all eight required fields, deleted set to the string False, a blank
fileSize, and a duration that is non-blank but carries surrounding
whitespace. -/
def exampleRow : Row :=
  [("conversationId", "c1"), ("timestamp", "t1"), ("messageId", "m1"),
   ("senderId", "s1"), ("type", "text"), ("content", "hi"),
   ("createdAt", "2024-01-01"), ("deleted", "False"), ("fileSize", ""),
   ("duration", " 42 ")]

/-- The item exampleRow converts to. -/
def exampleItem : Item :=
  [("conversationId", AttrVal.S "c1"), ("timestamp", AttrVal.S "t1"),
   ("messageId", AttrVal.S "m1"), ("senderId", AttrVal.S "s1"),
   ("type", AttrVal.S "text"), ("content", AttrVal.S "hi"),
   ("createdAt", AttrVal.S "2024-01-01"), ("deleted", AttrVal.BOOL false),
   ("readBy", AttrVal.L []), ("reactions", AttrVal.M []),
   ("duration", AttrVal.N " 42 ")]

theorem convert_exampleRow : convert_to_dynamodb_item exampleRow = Except.ok exampleItem := rfl

/-- Claim C4: the conversion interprets the deleted field by
case-insensitive comparison to the literal true string: the produced
boolean is exactly the test that the lowercased field value equals
"true", so any other value (empty, "False", "1", "yes") yields false. -/
theorem convert_deleted_parse (row : Row) (item : Item) (d : String)
    (hd : row.lookup "deleted" = some d)
    (h : convert_to_dynamodb_item row = Except.ok item) :
    item.lookup "deleted" = some (AttrVal.BOOL (pyLower d == "true")) ∧
    ((pyLower d == "true") = true ↔ pyLower d = "true") := by
  obtain ⟨cid, ts, mid, sid, ty, ct, ca, dl, _, _, _, _, _, _, _, hdl, rfl⟩ :=
    convert_ok_shape row item h
  rw [hd] at hdl
  cases hdl
  refine ⟨?_, beq_iff_eq⟩
  simp [lookup_append, List.lookup]

/-- Witness for C4 at the concrete record exampleRow, whose deleted
field holds "False": the stored boolean is the lowercased comparison,
which evaluates to false. -/
theorem convert_deleted_parse_witness :
    (exampleItem.lookup "deleted" = some (AttrVal.BOOL (pyLower "False" == "true")) ∧
      ((pyLower "False" == "true") = true ↔ pyLower "False" = "true")) ∧
    (pyLower "False" == "true") = false :=
  ⟨convert_deleted_parse exampleRow exampleItem "False" rfl convert_exampleRow, by decide⟩

/-- Claim C6: every converted item carries an empty readBy list and an
empty reactions map, regardless of the input record. -/
theorem convert_empty_containers (row : Row) (item : Item)
    (h : convert_to_dynamodb_item row = Except.ok item) :
    item.lookup "readBy" = some (AttrVal.L []) ∧
    item.lookup "reactions" = some (AttrVal.M []) := by
  obtain ⟨cid, ts, mid, sid, ty, ct, ca, dl, _, _, _, _, _, _, _, _, rfl⟩ :=
    convert_ok_shape row item h
  constructor <;> simp [lookup_append, List.lookup]

/-- Witness for C6 at the concrete record exampleRow. -/
theorem convert_empty_containers_witness :
    exampleItem.lookup "readBy" = some (AttrVal.L []) ∧
    exampleItem.lookup "reactions" = some (AttrVal.M []) :=
  convert_empty_containers exampleRow exampleItem convert_exampleRow

/-- Claim C5: each of the five optional fields appears in the converted
item exactly when the field is present in the record and non-blank after
trimming; an absent or blank optional field yields no attribute at all. -/
theorem convert_optional_present_iff (row : Row) (item : Item)
    (h : convert_to_dynamodb_item row = Except.ok item) (f : String)
    (c : String → AttrVal)
    (hf : (f, c) ∈ [("replyTo", AttrVal.S), ("duration", AttrVal.N),
      ("fileName", AttrVal.S), ("fileSize", AttrVal.N), ("mediaUrl", AttrVal.S)]) :
    (item.lookup f).isSome = true ↔
      ∃ v, row.lookup f = some v ∧ pyStrip v ≠ "" := by
  rw [convert_lookup_opt row item h f c hf, lookup_optAttr_self]
  cases hr : row.lookup f
  · simp
  · rename_i v
    simp only [Option.some.injEq]
    rw [if_congr (optCond_iff v) rfl rfl]
    by_cases hs : pyStrip v = "" <;> simp [hs]

/-- Witness for C5: in the conversion of exampleRow, the non-blank
duration field is present, and the blank fileSize field is absent. -/
theorem convert_optional_present_iff_witness :
    ((exampleItem.lookup "duration").isSome = true ↔
      ∃ v, exampleRow.lookup "duration" = some v ∧ pyStrip v ≠ "") ∧
    (exampleItem.lookup "duration").isSome = true ∧
    (exampleItem.lookup "fileSize").isSome = false :=
  ⟨convert_optional_present_iff exampleRow exampleItem convert_exampleRow
    "duration" AttrVal.N (by simp), by decide, by decide⟩

/-- Claim C10: when an optional field is non-blank after trimming, the
attribute stores the original untrimmed string of the record (trimming
is only the presence test). -/
theorem convert_optional_untrimmed (row : Row) (item : Item)
    (h : convert_to_dynamodb_item row = Except.ok item) (f : String)
    (c : String → AttrVal)
    (hf : (f, c) ∈ [("replyTo", AttrVal.S), ("duration", AttrVal.N),
      ("fileName", AttrVal.S), ("fileSize", AttrVal.N), ("mediaUrl", AttrVal.S)])
    (v : String) (hv : row.lookup f = some v) (hs : pyStrip v ≠ "") :
    item.lookup f = some (c v) := by
  rw [convert_lookup_opt row item h f c hf, lookup_optAttr_self, hv]
  simp [ne_empty_of_pyStrip_ne v hs, hs]

/-- Witness for C10: the duration " 42 " of exampleRow is stored with
its surrounding whitespace intact. -/
theorem convert_optional_untrimmed_witness :
    exampleItem.lookup "duration" = some (AttrVal.N " 42 ") :=
  convert_optional_untrimmed exampleRow exampleItem convert_exampleRow
    "duration" AttrVal.N (by simp) " 42 " rfl (by decide)

/-- A record with every required field except messageId. -/
def rowMissingMessageId : Row :=
  [("conversationId", "c1"), ("timestamp", "t1"), ("senderId", "s1"),
   ("type", "text"), ("content", "hi"), ("createdAt", "2024-01-01"),
   ("deleted", "false")]

/-- A record with every required field except senderId. -/
def rowMissingSenderId : Row :=
  [("conversationId", "c1"), ("timestamp", "t1"), ("messageId", "m1"),
   ("type", "text"), ("content", "hi"), ("createdAt", "2024-01-01"),
   ("deleted", "false")]

/-- Claim C1, refuted on the code: per-record failures are meant to be
caught, counted and logged with the loop continuing, but the per-record
except handler logs by reading row[messageId], so a record whose failure
is a missing messageId raises KeyError inside the handler and the whole
batch aborts — here the well-formed second record is never processed and
no counts survive. A record missing a different required field, and a
record whose write the store rejects, are indeed counted and the loop
continues. -/
theorem importLoop_messageId_abort :
    importLoop (fun _ => true) [rowMissingMessageId, exampleRow] 0 0 0 =
      Except.error "messageId" ∧
    importLoop (fun _ => true) [rowMissingSenderId, exampleRow] 0 0 0 =
      Except.ok (1, 1) ∧
    importLoop (fun _ => false) [exampleRow, exampleRow] 0 0 0 =
      Except.ok (0, 2) :=
  ⟨rfl, rfl, rfl⟩

theorem importTable_eq_applyPuts (rows : List Row) (t : Table) :
    importTable t rows = applyPuts t (putsOf rows) := by
  induction rows generalizing t with
  | nil => rfl
  | cons row rest ih =>
    cases hc : convert_to_dynamodb_item row with
    | ok item =>
      simp only [importTable, putsOf, hc]
      exact ih (putItem t item)
    | error e =>
      cases hm : row.lookup "messageId" <;>
        simp only [importTable, putsOf, hc, hm]
      · rfl
      · exact ih t

theorem applyPuts_untouched (ps : List Item) (t : Table)
    (k : Option String × Option String)
    (h : ∀ it ∈ ps, itemKey it ≠ k) : applyPuts t ps k = t k := by
  induction ps generalizing t with
  | nil => rfl
  | cons p rest ih =>
    have hp : itemKey p ≠ k := h p (by simp)
    have hstep : applyPuts t (p :: rest) = applyPuts (putItem t p) rest := rfl
    rw [hstep, ih (putItem t p) (fun it hit => h it (by simp [hit]))]
    simp [putItem, Ne.symm hp]

theorem applyPuts_touched (ps : List Item) (k : Option String × Option String)
    (h : ∃ it ∈ ps, itemKey it = k) (t₁ t₂ : Table) :
    applyPuts t₁ ps k = applyPuts t₂ ps k := by
  induction ps generalizing t₁ t₂ with
  | nil => exact absurd h (by simp)
  | cons p rest ih =>
    by_cases hr : ∃ it ∈ rest, itemKey it = k
    · exact ih hr _ _
    · push_neg at hr
      obtain ⟨it, hit, hk⟩ := h
      simp only [List.mem_cons] at hit
      have hpk : itemKey p = k := by
        cases hit with
        | inl h1 => rw [h1] at hk; exact hk
        | inr h2 => exact absurd hk (hr it h2)
      show applyPuts (putItem t₁ p) rest k = applyPuts (putItem t₂ p) rest k
      rw [applyPuts_untouched rest _ k hr, applyPuts_untouched rest _ k hr]
      simp [putItem, hpk]

/-- Claim C8: running the loader twice on an identical input file, with
no concurrent writers and the store accepting the writes, leaves every
row of the table with the same final value as a single run — each write
is an unconditional overwrite-put keyed by (conversationId, timestamp),
so the second run rewrites identical content. -/
theorem importTable_idempotent (t : Table) (rows : List Row)
    (k : Option String × Option String) :
    importTable (importTable t rows) rows k = importTable t rows k := by
  rw [importTable_eq_applyPuts rows t, importTable_eq_applyPuts rows]
  by_cases h : ∃ it ∈ putsOf rows, itemKey it = k
  · exact applyPuts_touched (putsOf rows) k h _ _
  · push_neg at h
    rw [applyPuts_untouched (putsOf rows) _ k h]

/-- A store whose first scan response already closes the pagination. -/
def emptyScanPages : Nat → ScanPage := fun _ => ⟨[], none⟩

/-- A store answering one empty page with a continuation token, then an
empty page with none. -/
def tokenThenStop : Nat → ScanPage :=
  fun i => if i = 0 then ⟨[], some "tok"⟩ else ⟨[], none⟩

/-- Counterexample to claim C2 as stated: the line YES is not the exact
accepted token yes, yet the mutator runs and issues a store call — the
gate compares input(...).strip().lower() against yes, so any
whitespace-padded or differently-cased spelling of yes is accepted. -/
theorem mutator_gate_counterexample :
    "YES" ≠ "yes" ∧ mutatorStoreCalls "YES" emptyScanPages 1 = 1 :=
  ⟨by decide, rfl⟩

/-- Claim C2 amended: the mutator performs zero store calls unless the
confirmation line, stripped of surrounding whitespace and lowercased,
equals yes; any other input aborts with no side effects. -/
theorem mutator_gate_zero_calls (line : String) (pages : Nat → ScanPage)
    (fuel : Nat) (h : pyLower (pyStrip line) ≠ "yes") :
    mutatorStoreCalls line pages fuel = 0 := by
  have hc : confirmAccepted line = false := by
    simp [confirmAccepted, h]
  simp [mutatorStoreCalls, hc]

/-- Witness for the amended C2: the line no is declined and produces
zero store calls. -/
theorem mutator_gate_zero_calls_witness :
    mutatorStoreCalls "no" emptyScanPages 1 = 0 :=
  mutator_gate_zero_calls "no" emptyScanPages 1 (by decide)

theorem scanLoop_some_to_none (pages : Nat → ScanPage) (outcome : Nat → Bool) :
    ∀ (fuel i n : Nat) (st res : Counters),
      scanLoop pages outcome fuel i n st = some res →
      ∃ j, (pages (i + j)).lastKey = none := by
  intro fuel
  induction fuel with
  | zero =>
    intro i n st res h
    exact absurd h (by simp [scanLoop])
  | succ fuel ih =>
    intro i n st res h
    cases hk : (pages i).lastKey with
    | none => exact ⟨0, by simpa using hk⟩
    | some tok =>
      simp only [scanLoop, hk] at h
      obtain ⟨j, hj⟩ := ih (i + 1) _ _ _ h
      exact ⟨j + 1, by rw [show i + (j + 1) = i + 1 + j by omega]; exact hj⟩

theorem scanLoop_none_to_some (pages : Nat → ScanPage) (outcome : Nat → Bool) :
    ∀ (j i n : Nat) (st : Counters), (pages (i + j)).lastKey = none →
      ∃ res, scanLoop pages outcome (j + 1) i n st = some res := by
  intro j
  induction j with
  | zero =>
    intro i n st h
    rw [Nat.add_zero] at h
    refine ⟨(processItems outcome (pages i).items n
      { st with scanned := st.scanned + (pages i).items.length }).2, ?_⟩
    simp only [scanLoop, h]
  | succ j ih =>
    intro i n st h
    cases hk : (pages i).lastKey with
    | none =>
      refine ⟨(processItems outcome (pages i).items n
        { st with scanned := st.scanned + (pages i).items.length }).2, ?_⟩
      simp only [scanLoop, hk]
    | some tok =>
      obtain ⟨res, hres⟩ := ih (i + 1)
        (processItems outcome (pages i).items n
          { st with scanned := st.scanned + (pages i).items.length }).1
        (processItems outcome (pages i).items n
          { st with scanned := st.scanned + (pages i).items.length }).2
        (by rw [show i + 1 + j = i + (j + 1) by omega]; exact h)
      exact ⟨res, by simp only [scanLoop, hk]; exact hres⟩

/-- Claim C3: the scan loop terminates exactly when the store eventually
answers a scan with no continuation token, and an iteration whose page
has zero items but a continuation token present just moves on to the
next scan, leaving the state unchanged. -/
theorem scanLoop_terminates_iff (pages : Nat → ScanPage) (outcome : Nat → Bool) :
    ((∃ fuel res, scanLoop pages outcome fuel 0 0 ⟨0, 0, 0⟩ = some res) ↔
      (∃ i, (pages i).lastKey = none)) ∧
    (∀ (fuel i n : Nat) (st : Counters), (pages i).items = [] →
      (pages i).lastKey ≠ none →
      scanLoop pages outcome (fuel + 1) i n st =
        scanLoop pages outcome fuel (i + 1) n st) := by
  constructor
  · constructor
    · rintro ⟨fuel, res, h⟩
      obtain ⟨j, hj⟩ := scanLoop_some_to_none pages outcome fuel 0 0 ⟨0, 0, 0⟩ res h
      exact ⟨j, by simpa using hj⟩
    · rintro ⟨i, hi⟩
      obtain ⟨res, hres⟩ :=
        scanLoop_none_to_some pages outcome i 0 0 ⟨0, 0, 0⟩ (by simpa using hi)
      exact ⟨i + 1, res, hres⟩
  · intro fuel i n st hempty hk
    cases hkk : (pages i).lastKey with
    | none => exact absurd hkk hk
    | some tok =>
      simp only [scanLoop, hkk, hempty, processItems, List.length_nil, Nat.add_zero]

/-- Witness for C3 at a concrete store: with a token-free first page the
loop terminates, and with an empty page carrying a token the iteration
continues to the next page. -/
theorem scanLoop_terminates_iff_witness :
    (∃ fuel res,
      scanLoop tokenThenStop (fun _ => true) fuel 0 0 ⟨0, 0, 0⟩ = some res) ∧
    scanLoop tokenThenStop (fun _ => true) 2 0 0 ⟨0, 0, 0⟩ =
      scanLoop tokenThenStop (fun _ => true) 1 1 0 ⟨0, 0, 0⟩ :=
  ⟨(scanLoop_terminates_iff tokenThenStop (fun _ => true)).1.mpr ⟨1, rfl⟩,
   (scanLoop_terminates_iff tokenThenStop (fun _ => true)).2 1 0 0 ⟨0, 0, 0⟩
     rfl (by decide)⟩

theorem processItems_counts (outcome : Nat → Bool) :
    ∀ (items : List Item) (n : Nat) (st : Counters),
      (processItems outcome items n st).2.updated +
          (processItems outcome items n st).2.errored =
        st.updated + st.errored + items.length ∧
      (processItems outcome items n st).2.scanned = st.scanned := by
  intro items
  induction items with
  | nil => intro n st; simp [processItems]
  | cons it rest ih =>
    intro n st
    simp only [processItems, List.length_cons]
    obtain ⟨h1, h2⟩ := ih (n + 1) (stepItem (outcome n) st)
    rw [h1, h2]
    cases ho : outcome n <;> simp [stepItem] <;> omega

theorem processItemsStates_inv (outcome : Nat → Bool) :
    ∀ (items : List Item) (n : Nat) (st : Counters),
      st.updated + st.errored + items.length ≤ st.scanned →
      ∀ x ∈ processItemsStates outcome items n st,
        x.updated + x.errored ≤ x.scanned := by
  intro items
  induction items with
  | nil =>
    intro n st h x hx
    simp [processItemsStates] at hx
    subst hx
    omega
  | cons it rest ih =>
    intro n st h x hx
    simp only [List.length_cons] at h
    simp only [processItemsStates, List.mem_cons] at hx
    cases hx with
    | inl h1 => subst h1; omega
    | inr h2 =>
      refine ih (n + 1) (stepItem (outcome n) st) ?_ x h2
      cases ho : outcome n <;> simp [stepItem] <;> omega

theorem scanLoopTrace_inv (pages : Nat → ScanPage) (outcome : Nat → Bool) :
    ∀ (fuel i n : Nat) (st : Counters), st.updated + st.errored ≤ st.scanned →
      ∀ x ∈ scanLoopTrace pages outcome fuel i n st,
        x.updated + x.errored ≤ x.scanned := by
  intro fuel
  induction fuel with
  | zero =>
    intro i n st h x hx
    simp [scanLoopTrace] at hx
    subst hx
    exact h
  | succ fuel ih =>
    intro i n st h x hx
    simp only [scanLoopTrace] at hx
    cases hk : (pages i).lastKey <;>
      simp only [hk, List.mem_cons, List.mem_append] at hx
    case none =>
      cases hx with
      | inl h1 => subst h1; exact h
      | inr h2 =>
        refine processItemsStates_inv outcome (pages i).items n _ ?_ x h2
        simp
        omega
    case some tok =>
      rcases hx with (h1 | h2) | h3
      · subst h1; exact h
      · refine processItemsStates_inv outcome (pages i).items n _ ?_ x h2
        simp
        omega
      · refine ih (i + 1) _ _ ?_ x h3
        obtain ⟨hc1, hc2⟩ := processItems_counts outcome (pages i).items n
          { st with scanned := st.scanned + (pages i).items.length }
        rw [hc1, hc2]
        simp
        omega

/-- Claim C7: starting from zeroed counters, every counter state the
scan loop passes through satisfies updated + errored ≤ scanned, and the
inner loop processes every item of a page whatever the per-item
outcomes: the processed total updated + errored grows by exactly the
page length, so one row's failure never prevents later rows. -/
theorem mutator_counters_invariant (pages : Nat → ScanPage) (outcome : Nat → Bool) :
    (∀ (fuel : Nat), ∀ x ∈ scanLoopTrace pages outcome fuel 0 0 ⟨0, 0, 0⟩,
      x.updated + x.errored ≤ x.scanned) ∧
    (∀ (items : List Item) (n : Nat) (st : Counters),
      (processItems outcome items n st).2.updated +
          (processItems outcome items n st).2.errored =
        st.updated + st.errored + items.length ∧
      (processItems outcome items n st).2.scanned = st.scanned) :=
  ⟨fun fuel => scanLoopTrace_inv pages outcome fuel 0 0 ⟨0, 0, 0⟩ (by simp),
   processItems_counts outcome⟩

/-- Witness for C7: the invariant holds at a concrete state of a
concrete run, and the count bookkeeping of a one-item page with a
failing update is exact. -/
theorem mutator_counters_invariant_witness :
    ((⟨0, 0, 0⟩ : Counters).updated + (⟨0, 0, 0⟩ : Counters).errored ≤
      (⟨0, 0, 0⟩ : Counters).scanned) ∧
    ((processItems (fun _ => false) [exampleItem] 0 ⟨1, 0, 0⟩).2.updated +
        (processItems (fun _ => false) [exampleItem] 0 ⟨1, 0, 0⟩).2.errored =
      (⟨1, 0, 0⟩ : Counters).updated + (⟨1, 0, 0⟩ : Counters).errored +
        [exampleItem].length ∧
      (processItems (fun _ => false) [exampleItem] 0 ⟨1, 0, 0⟩).2.scanned =
        (⟨1, 0, 0⟩ : Counters).scanned) :=
  ⟨(mutator_counters_invariant emptyScanPages (fun _ => true)).1 1 ⟨0, 0, 0⟩
      (by decide),
   (mutator_counters_invariant emptyScanPages (fun _ => false)).2
      [exampleItem] 0 ⟨1, 0, 0⟩⟩

theorem lookup_setAttr_ne (it : Item) (b a : String) (v : AttrVal) (h : a ≠ b) :
    (setAttr it b v).lookup a = it.lookup a := by
  have hb : (a == b) = false := by simp [h]
  induction it with
  | nil => simp [setAttr, List.lookup, hb]
  | cons p rest ih =>
    obtain ⟨c, w⟩ := p
    simp only [setAttr]
    cases hc : c == b
    case true =>
      have hcb : c = b := by simpa using hc
      have hac : (a == c) = false := by rw [hcb]; exact hb
      simp [List.lookup, hac]
    case false =>
      simp only [Bool.false_eq_true, if_false, List.lookup]
      cases a == c <;> simp [ih]

/-- Claim C9: a sender-id update issued by the mutator touches only the
senderId attribute of the addressed row — rows at any other primary key
are unchanged, every other attribute of the addressed row keeps its
value, and the row's primary key (conversationId, timestamp) is
unchanged, so pagination remains stable. -/
theorem updateSenderId_frame (t : Table) (k q : Option String × Option String)
    (ns : String) :
    (q ≠ k → updateItemSenderId t k ns q = t q) ∧
    (∀ (it : Item) (a : String), a ≠ "senderId" →
      (applyUpdateSenderId ns it).lookup a = it.lookup a) ∧
    (∀ it : Item, itemKey (applyUpdateSenderId ns it) = itemKey it) := by
  refine ⟨fun hq => ?_,
    fun it a ha => lookup_setAttr_ne it "senderId" a (AttrVal.S ns) ha,
    fun it => ?_⟩
  · simp [updateItemSenderId, hq]
  · unfold itemKey getS applyUpdateSenderId
    rw [lookup_setAttr_ne it "senderId" "conversationId" (AttrVal.S ns) (by decide),
      lookup_setAttr_ne it "senderId" "timestamp" (AttrVal.S ns) (by decide)]

/-- A one-row table holding exampleItem under its key. -/
def exampleTable : Table :=
  fun q => if q = (some "c1", some "t1") then some exampleItem else none

/-- Witness for C9 at a concrete table, row and attributes. -/
theorem updateSenderId_frame_witness :
    updateItemSenderId exampleTable (some "c1", some "t1") NEW_SENDER_ID
        (some "c2", some "t1") = exampleTable (some "c2", some "t1") ∧
    (applyUpdateSenderId NEW_SENDER_ID exampleItem).lookup "content" =
      exampleItem.lookup "content" ∧
    itemKey (applyUpdateSenderId NEW_SENDER_ID exampleItem) =
      itemKey exampleItem := by
  obtain ⟨h1, h2, h3⟩ := updateSenderId_frame exampleTable
    (some "c1", some "t1") (some "c2", some "t1") NEW_SENDER_ID
  exact ⟨h1 (by decide), h2 exampleItem "content" (by decide), h3 exampleItem⟩

end PantherKolab
